import Mathlib

/-!
Verification of the tool-call round-trip orchestrator from
`src/code/02_functions_calling.ipynb`.

Python dicts, lists, strings, ints and `None` are embedded as the
inductive type `PyVal`.  The notebook functions (`message`,
`get_weather`, the tool-call execution loop of cell 21, and the
round-trip appends of cells 17 and 30) are translated as Lean
functions over `PyVal`.  `json.loads` is a Python standard-library
call; the loop is parameterised over a decode function
`jsonLoads : String → Option (List (String × PyVal))`, with decode
failure (an uncaught `json.JSONDecodeError` in Python) represented
as `Option.none`.
-/

/-- A Python value as used in the notebook: strings, ints, lists,
string-keyed dicts (association lists, preserving insertion order as
Python dicts do), and `None`. -/
inductive PyVal where
  | str (s : String)
  | int (n : Int)
  | list (elems : List PyVal)
  | dict (entries : List (String × PyVal))
  | none
deriving Repr

/-- A single quote character, as produced by Python `repr` for strings. -/
def squote : String := String.singleton (Char.ofNat 39)

mutual

/-- Python `repr` of a value (as far as the notebook exercises it):
dicts print as `\x7b...\x7d` with single-quoted keys, strings are
single-quoted, `None` prints as `None`. -/
def pyRepr : PyVal → String
  | .str s => squote ++ s ++ squote
  | .int n => toString n
  | .list l => "[" ++ pyReprList l ++ "]"
  | .dict l => "\x7b" ++ pyReprEntries l ++ "\x7d"
  | .none => "None"

/-- Comma-separated `repr` of list elements. -/
def pyReprList : List PyVal → String
  | [] => ""
  | [v] => pyRepr v
  | v :: rest => pyRepr v ++ ", " ++ pyReprList rest

/-- Comma-separated `repr` of dict entries. -/
def pyReprEntries : List (String × PyVal) → String
  | [] => ""
  | [(k, v)] => squote ++ k ++ squote ++ ": " ++ pyRepr v
  | (k, v) :: rest => squote ++ k ++ squote ++ ": " ++ pyRepr v ++ ", " ++ pyReprEntries rest

end

/-- Python `str()`: identity on strings, `repr` on everything else the
notebook passes to it. -/
def pyStr : PyVal → String
  | .str s => s
  | v => pyRepr v

/-- Dictionary field access: `d[k]` as an `Option`. -/
def dictGet (v : PyVal) (k : String) : Option PyVal :=
  match v with
  | .dict l => List.lookup k l
  | _ => Option.none

/-- The list of keys of a dict (in insertion order), `[]` otherwise. -/
def dictKeys : PyVal → List String
  | .dict l => l.map Prod.fst
  | _ => []

/-- Whether a value is bare text or `None` (the content type the spec
claims for messages). -/
def isTextOrNull : PyVal → Bool
  | .str _ => true
  | .none => true
  | _ => false

/-- Cell 4 of the notebook:
`def message(role, content): return ...` — builds a message dict whose
`content` field is a one-element list holding a text part. -/
def message (role : String) (content : String) : PyVal :=
  .dict [("role", .str role),
         ("content", .list [.dict [("type", .str "text"), ("text", .str content)]])]

/-- Cell 5 of the notebook: the initial conversation. -/
def messages : List PyVal :=
  [message "developer" "you are a helpful assistant",
   message "user" "How is the weather in Sydney today?"]

set_option linter.unusedVariables false in
/-- Cell 11 of the notebook: `def get_weather(location): return ...` —
the stub ignores its argument and returns a constant dict. -/
def get_weather (location : PyVal) : PyVal :=
  .dict [("temperature", .int 25), ("condition", .str "sunny")]

/-- The Python exceptions the tool-call loop of cell 21 can raise:
`KeyError` from `locals()[function_name]` (the spec calls this
UnknownFunction), `json.JSONDecodeError` from `json.loads` (the spec
calls this MalformedArguments), and `TypeError` from keyword-argument
binding at the call site. -/
inductive PyErr where
  | keyError (name : String)
  | jsonDecodeError
  | typeError
deriving Repr, DecidableEq

/-- The `function` field of a model tool-call request:
`tool.function.name` and `tool.function.arguments` (a JSON-encoded
string). -/
structure ToolFunction where
  name : String
  arguments : String
deriving Repr, DecidableEq

/-- A model tool-call request: `tool.id` (the correlation token) and
`tool.function`. -/
structure ToolCall where
  id : String
  function : ToolFunction
deriving Repr, DecidableEq

/-- A decoded keyword-argument mapping, the result of
`json.loads(tool.function.arguments)` on a JSON object. -/
abbrev ArgMap := List (String × PyVal)

/-- The registry of locally implemented functions: the name → callable
mapping that `locals()[function_name]` consults in cell 21.  A callable
takes the decoded keyword arguments (`**function_args`) and either
returns a value or raises. -/
abbrev Registry := List (String × (ArgMap → Except PyErr PyVal))

/-- `get_weather` as the loop calls it: `get_weather(**function_args)`.
Python binds the keyword arguments against the single parameter
`location`; any other keyword set raises `TypeError`. -/
def get_weather_kwargs (kwargs : ArgMap) : Except PyErr PyVal :=
  match kwargs with
  | [(k, v)] => if k = "location" then .ok (get_weather v) else .error .typeError
  | _ => .error .typeError

/-- The registry visible to `locals()` in cell 21 that matters for
dispatch: the one locally implemented tool. -/
def localsRegistry : Registry := [("get_weather", get_weather_kwargs)]

/-- Cell 21 of the notebook: the tool result message
`\x7b"role": "tool", "type": "function_call_output",
"tool_call_id": tool_call_id, "content": str(function_call_results)\x7d`. -/
def function_call_results_message (tool_call_id : String)
    (function_call_results : PyVal) : PyVal :=
  .dict [("role", .str "tool"),
         ("type", .str "function_call_output"),
         ("tool_call_id", .str tool_call_id),
         ("content", .str (pyStr function_call_results))]

/-- Outcome of running the cell-21 loop over a list of tool calls:
the tool result messages appended to `chat_history` (in order), the
invocations actually performed (function name with the exact decoded
argument mapping passed to it), and the first uncaught exception if the
loop aborted. -/
structure ToolLoopResult where
  appended : List PyVal
  invocations : List (String × ArgMap)
  err : Option PyErr
deriving Repr

/-- Cell 21 of the notebook: `for tool in tool_calls: ...`.  Per tool
call, in source order: decode `tool.function.arguments` with
`json.loads` (raising on parse failure), resolve
`locals()[function_name]` (raising `KeyError` if absent), call the
function with the decoded keyword arguments, and append the tool result
message.  An exception aborts the loop, leaving the earlier appends in
place. -/
def runToolCalls (jsonLoads : String → Option ArgMap) (registry : Registry) :
    List ToolCall → ToolLoopResult
  | [] => ⟨[], [], Option.none⟩
  | tool :: rest =>
    match jsonLoads tool.function.arguments with
    | Option.none => ⟨[], [], some .jsonDecodeError⟩
    | some function_args =>
      match List.lookup tool.function.name registry with
      | Option.none => ⟨[], [], some (.keyError tool.function.name)⟩
      | some f =>
        match f function_args with
        | .error e => ⟨[], [], some e⟩
        | .ok function_call_results =>
          let r := runToolCalls jsonLoads registry rest
          ⟨function_call_results_message tool.id function_call_results :: r.appended,
           (tool.function.name, function_args) :: r.invocations,
           r.err⟩

/-- The effect of the cell-21 loop on the conversation history: the
result messages are appended to `chat_history`; an uncaught exception
is returned alongside the history as the loop left it. -/
def executeToolCallsOn (jsonLoads : String → Option ArgMap) (registry : Registry)
    (chat_history : List PyVal) (tool_calls : List ToolCall) :
    List PyVal × Option PyErr :=
  let r := runToolCalls jsonLoads registry tool_calls
  (chat_history ++ r.appended, r.err)

/-- Cell 17: `chat_history.append(json.loads(completion...to_json()))` —
recording the model message that carried the tool calls. -/
def recordModelMessage (chat_history : List PyVal) (m : PyVal) : List PyVal :=
  chat_history ++ [m]

/-- Cell 30, first append: recording the model final answer. -/
def recordFinalAnswer (chat_history : List PyVal) (m : PyVal) : List PyVal :=
  chat_history ++ [m]

/-- Cell 30, second append: `chat_history.append(message("user", ...))`. -/
def addUserTurn (chat_history : List PyVal) (content : String) : List PyVal :=
  chat_history ++ [message "user" content]

/-- The full round trip over the conversation history (cells 13–30):
record the model tool-call message, run the tool-call loop, and — when
no exception aborted the turn — record the final answer and the next
user turn.  The model responses themselves come from the network and
are inputs here. -/
def roundTrip (jsonLoads : String → Option ArgMap) (registry : Registry)
    (messages0 : List PyVal) (modelMsg : PyVal) (tool_calls : List ToolCall)
    (finalMsg : PyVal) (newUser : String) : List PyVal × Option PyErr :=
  let chat_history := recordModelMessage messages0 modelMsg
  let r := runToolCalls jsonLoads registry tool_calls
  match r.err with
  | some e => (chat_history ++ r.appended, some e)
  | Option.none =>
      (addUserTurn (recordFinalAnswer (chat_history ++ r.appended) finalMsg) newUser,
       Option.none)

/-- The tool_call_id field of a tool result message, as a string. -/
def msgToolCallId (m : PyVal) : Option String :=
  match dictGet m "tool_call_id" with
  | some (PyVal.str s) => some s
  | _ => Option.none

/-- The arguments string the model sends in the recorded run:
`\x7b"location": "Sydney"\x7d`. -/
def argsSydney : String := "\x7b\"location\": \"Sydney\"\x7d"

/-- A concrete stand-in for `json.loads` covering the strings exercised
in the recorded run: the Sydney argument object, the empty object, and
parse failure on everything else. -/
def jsonLoadsDemo : String → Option ArgMap := fun s =>
  if s = argsSydney then some [("location", PyVal.str "Sydney")]
  else if s = "\x7b\x7d" then some []
  else Option.none

/-- The tool call the model requests in the recorded run. -/
def demoToolCall : ToolCall :=
  ⟨"call_1", ⟨"get_weather", argsSydney⟩⟩

/-- A tool call whose function name has no local implementation. -/
def unknownToolCall : ToolCall :=
  ⟨"call_2", ⟨"get_stock", "\x7b\x7d"⟩⟩

/-- A tool call whose arguments string is not valid JSON. -/
def malformedToolCall : ToolCall :=
  ⟨"call_3", ⟨"get_weather", "not json"⟩⟩

/-!
A small reference model of Python variable binding, for the aliasing
behaviour of `chat_history = messages` (cell 13): list objects live in
a store, variables are names bound to store references, assignment of
one variable to another copies the reference (not the list), and
`append` mutates the store cell in place.
-/

/-- The store of list objects; a reference is an index into it. -/
structure Store where
  lists : List (List PyVal)
deriving Repr

/-- A variable environment: names bound to store references. -/
abbrev Env := List (String × Nat)

/-- Python assignment `newName = oldName` for list variables: bind
`newName` to the same reference as `oldName` (no copy). -/
def assignAlias (env : Env) (newName oldName : String) : Env :=
  match List.lookup oldName env with
  | some r => (newName, r) :: env
  | Option.none => env

/-- Python `x.append(v)`: mutate the list object that `x` refers to. -/
def appendVar (st : Store) (env : Env) (x : String) (v : PyVal) : Store :=
  match List.lookup x env with
  | some r => ⟨st.lists.set r (st.lists.getD r [] ++ [v])⟩
  | Option.none => st

/-- Read the list a variable currently denotes. -/
def readVar (st : Store) (env : Env) (x : String) : Option (List PyVal) :=
  (List.lookup x env).map (fun r => st.lists.getD r [])

/-- The environment after cell 13 (`chat_history = messages`): the
store holds the one list object, `messages` is bound to it, and
`chat_history` is bound by aliasing assignment. -/
def envAfterAlias : Env :=
  assignAlias [("messages", 0)] "chat_history" "messages"

/-- The store and environment after cell 13 and then a sequence of
appends performed on `chat_history` during the round trip. -/
def sessionAfterAppends (vs : List PyVal) : Store × Env :=
  (vs.foldl (fun st v => appendVar st envAfterAlias "chat_history" v) ⟨[messages]⟩,
   envAfterAlias)

/-- The tool result message built for `tool_call_id` carries exactly
that id. -/
theorem msgToolCallId_fcrm (tcid : String) (res : PyVal) :
    msgToolCallId (function_call_results_message tcid res) = some tcid := rfl

/-- C9: `get_weather` returns the same constant value
`\x7b"temperature": 25, "condition": "sunny"\x7d` for every input
location; the result does not depend on the location argument. -/
theorem get_weather_constant (l1 l2 : PyVal) :
    get_weather l1 = get_weather l2 ∧
    get_weather l1 = PyVal.dict [("temperature", .int 25), ("condition", .str "sunny")] :=
  ⟨rfl, rfl⟩

/-- C1: for a model response containing exactly one tool call whose
function name resolves in the registry, the loop invokes that function
with exactly the decoded argument mapping, and appends a tool message
carrying the tool call request id as its `tool_call_id`. -/
theorem single_registered_toolcall_roundtrip (jl : String → Option ArgMap)
    (reg : Registry) (tc : ToolCall) (args : ArgMap)
    (f : ArgMap → Except PyErr PyVal) (res : PyVal)
    (hargs : jl tc.function.arguments = some args)
    (hreg : List.lookup tc.function.name reg = some f)
    (hok : f args = .ok res) :
    runToolCalls jl reg [tc] =
      ⟨[function_call_results_message tc.id res],
       [(tc.function.name, args)], Option.none⟩ ∧
    msgToolCallId (function_call_results_message tc.id res) = some tc.id := by
  refine ⟨?_, msgToolCallId_fcrm tc.id res⟩
  simp [runToolCalls, hargs, hreg, hok]

/-- C1 witness: the recorded Sydney run. -/
theorem single_registered_toolcall_roundtrip_witness :
    runToolCalls jsonLoadsDemo localsRegistry [demoToolCall] =
      ⟨[function_call_results_message demoToolCall.id (get_weather (.str "Sydney"))],
       [(demoToolCall.function.name, [("location", PyVal.str "Sydney")])],
       Option.none⟩ ∧
    msgToolCallId (function_call_results_message demoToolCall.id
        (get_weather (.str "Sydney"))) = some demoToolCall.id :=
  single_registered_toolcall_roundtrip jsonLoadsDemo localsRegistry demoToolCall
    [("location", PyVal.str "Sydney")] get_weather_kwargs
    (get_weather (.str "Sydney")) (by rfl) (by rfl) (by rfl)

/-- C3: dispatch resolves the requested name in the registry, and a
name absent from the registry makes the loop abort with `KeyError`
(the UnknownFunction error), which surfaces to the caller in the loop
result. -/
theorem unknown_function_dispatch_fails (jl : String → Option ArgMap)
    (reg : Registry) (tc : ToolCall) (rest : List ToolCall) (args : ArgMap)
    (hargs : jl tc.function.arguments = some args)
    (habs : List.lookup tc.function.name reg = Option.none) :
    runToolCalls jl reg (tc :: rest) =
      ⟨[], [], some (.keyError tc.function.name)⟩ := by
  simp [runToolCalls, hargs, habs]

/-- C3 witness: requesting the unimplemented `get_stock`. -/
theorem unknown_function_dispatch_fails_witness :
    runToolCalls jsonLoadsDemo localsRegistry [unknownToolCall] =
      ⟨[], [], some (.keyError unknownToolCall.function.name)⟩ :=
  unknown_function_dispatch_fails jsonLoadsDemo localsRegistry unknownToolCall []
    [] (by rfl) (by rfl)

/-- C4: an arguments string that fails to decode makes the loop abort
with `json.JSONDecodeError` (the MalformedArguments error), fatal to
the turn: nothing is invoked and nothing is appended. -/
theorem malformed_arguments_fatal (jl : String → Option ArgMap)
    (reg : Registry) (tc : ToolCall) (rest : List ToolCall)
    (hbad : jl tc.function.arguments = Option.none) :
    runToolCalls jl reg (tc :: rest) = ⟨[], [], some .jsonDecodeError⟩ := by
  simp [runToolCalls, hbad]

/-- C4 witness: a non-JSON arguments string. -/
theorem malformed_arguments_fatal_witness :
    runToolCalls jsonLoadsDemo localsRegistry [malformedToolCall] =
      ⟨[], [], some .jsonDecodeError⟩ :=
  malformed_arguments_fatal jsonLoadsDemo localsRegistry malformedToolCall []
    (by rfl)

/-- C5: processing a tool call whose function name has no local
implementation raises an error and leaves the conversation history
exactly as it was before the failed dispatch: no tool result message
is appended on that error path. -/
theorem unknown_function_leaves_history (jl : String → Option ArgMap)
    (reg : Registry) (chat_history : List PyVal) (tc : ToolCall)
    (rest : List ToolCall)
    (habs : List.lookup tc.function.name reg = Option.none) :
    (executeToolCallsOn jl reg chat_history (tc :: rest)).1 = chat_history ∧
    (executeToolCallsOn jl reg chat_history (tc :: rest)).2.isSome = true := by
  cases hjl : jl tc.function.arguments with
  | none => simp [executeToolCallsOn, runToolCalls, hjl]
  | some args => simp [executeToolCallsOn, runToolCalls, hjl, habs]

/-- C5 witness: the unknown `get_stock` call on the recorded history. -/
theorem unknown_function_leaves_history_witness :
    (executeToolCallsOn jsonLoadsDemo localsRegistry messages [unknownToolCall]).1
      = messages ∧
    (executeToolCallsOn jsonLoadsDemo localsRegistry messages
        [unknownToolCall]).2.isSome = true :=
  unknown_function_leaves_history jsonLoadsDemo localsRegistry messages
    unknownToolCall [] (by rfl)

/-- C6 counterexample: the tool result message does not have exactly
the keys `role, tool_call_id, content` — it carries an extra `type`
field with value `function_call_output`. -/
theorem tool_result_shape_counterexample :
    dictGet (function_call_results_message "call_1" (get_weather (.str "Sydney")))
        "type" = some (.str "function_call_output") ∧
    dictKeys (function_call_results_message "call_1" (get_weather (.str "Sydney")))
      ≠ ["role", "tool_call_id", "content"] :=
  ⟨rfl, by decide⟩

/-- C6 amended: every tool result message has exactly the fixed shape
`\x7brole: "tool", type: "function_call_output", tool_call_id,
content\x7d`, where `content` is the function result serialized with
`str()` and `tool_call_id` is the original correlation id of the
request. -/
theorem tool_result_message_shape (tool_call_id : String) (res : PyVal) :
    dictGet (function_call_results_message tool_call_id res) "role"
      = some (.str "tool") ∧
    dictGet (function_call_results_message tool_call_id res) "type"
      = some (.str "function_call_output") ∧
    dictGet (function_call_results_message tool_call_id res) "tool_call_id"
      = some (.str tool_call_id) ∧
    dictGet (function_call_results_message tool_call_id res) "content"
      = some (.str (pyStr res)) ∧
    dictKeys (function_call_results_message tool_call_id res)
      = ["role", "type", "tool_call_id", "content"] :=
  ⟨rfl, rfl, rfl, rfl, rfl⟩

/-- C7: the conversation history is append-only — recording the model
tool-call message, recording the tool results, recording the final
answer, and adding a new user turn each only append to the history,
leaving every earlier element and their relative order unchanged, and
the round trip as a whole extends the initial history. -/
theorem history_append_only (jl : String → Option ArgMap) (reg : Registry)
    (messages0 : List PyVal) (modelMsg : PyVal) (tool_calls : List ToolCall)
    (finalMsg : PyVal) (newUser : String) :
    (∃ t, recordModelMessage messages0 modelMsg = messages0 ++ t) ∧
    (∀ h : List PyVal, ∃ t, (executeToolCallsOn jl reg h tool_calls).1 = h ++ t) ∧
    (∀ (h : List PyVal) (m : PyVal), ∃ t, recordFinalAnswer h m = h ++ t) ∧
    (∀ (h : List PyVal) (c : String), ∃ t, addUserTurn h c = h ++ t) ∧
    (∃ t, (roundTrip jl reg messages0 modelMsg tool_calls finalMsg newUser).1
      = messages0 ++ t) := by
  refine ⟨⟨[modelMsg], rfl⟩, fun h => ⟨_, rfl⟩, fun h m => ⟨[m], rfl⟩,
    fun h c => ⟨_, rfl⟩, ?_⟩
  unfold roundTrip
  cases herr : (runToolCalls jl reg tool_calls).err with
  | some e =>
      refine ⟨[modelMsg] ++ (runToolCalls jl reg tool_calls).appended, ?_⟩
      simp [herr, recordModelMessage]
  | none =>
      refine ⟨[modelMsg] ++ (runToolCalls jl reg tool_calls).appended
          ++ [finalMsg] ++ [message "user" newUser], ?_⟩
      simp [herr, recordModelMessage, recordFinalAnswer, addUserTurn]

/-- C8 counterexample: a message built by the `message` constructor
has `content` that is neither bare text nor null — it is a one-element
list holding a text part. -/
theorem message_content_counterexample :
    (dictGet (message "user" "How is the weather in Sydney today?") "content").map
        isTextOrNull = some false ∧
    dictGet (message "user" "How is the weather in Sydney today?") "content"
      = some (.list [.dict [("type", .str "text"),
          ("text", .str "How is the weather in Sydney today?")]]) :=
  ⟨rfl, rfl⟩

/-- C8 amended: every message built by `message(role, content)` has
exactly the keys `role` and `content`, with `role` the given role and
`content` a one-element list holding the text part
`\x7btype: "text", text: content\x7d` (not bare text or null). -/
theorem message_constructor_shape (role : String) (content : String) :
    dictKeys (message role content) = ["role", "content"] ∧
    dictGet (message role content) "role" = some (.str role) ∧
    dictGet (message role content) "content"
      = some (.list [.dict [("type", .str "text"), ("text", .str content)]]) :=
  ⟨rfl, rfl, rfl⟩

/-- Folding appends through the aliased `chat_history` binding mutates
the single stored list object in place. -/
theorem appendVar_fold (vs : List PyVal) (l : List PyVal) :
    vs.foldl (fun st v => appendVar st envAfterAlias "chat_history" v)
      ⟨[l]⟩ = ⟨[l ++ vs]⟩ := by
  induction vs generalizing l with
  | nil => simp
  | cons v vs ih =>
      have hstep : appendVar ⟨[l]⟩ envAfterAlias "chat_history" v = ⟨[l ++ [v]]⟩ := rfl
      calc (v :: vs).foldl
            (fun st v => appendVar st envAfterAlias "chat_history" v) ⟨[l]⟩
          = vs.foldl (fun st v => appendVar st envAfterAlias "chat_history" v)
              ⟨[l ++ [v]]⟩ := by rw [List.foldl_cons, hstep]
        _ = ⟨[(l ++ [v]) ++ vs]⟩ := ih (l ++ [v])
        _ = ⟨[l ++ (v :: vs)]⟩ := by simp

/-- When the cell-21 loop finishes without an exception, the appended
tool result messages carry, in order, exactly the correlation ids of
the processed requests. -/
theorem runToolCalls_ids (jl : String → Option ArgMap) (reg : Registry)
    (ts : List ToolCall) (hok : (runToolCalls jl reg ts).err = Option.none) :
    (runToolCalls jl reg ts).appended.map msgToolCallId
      = ts.map (fun t => some t.id) := by
  induction ts with
  | nil => rfl
  | cons t rest ih =>
      cases hjl : jl t.function.arguments with
      | none => simp [runToolCalls, hjl] at hok
      | some args =>
          cases hlk : List.lookup t.function.name reg with
          | none => simp [runToolCalls, hjl, hlk] at hok
          | some f =>
              cases hf : f args with
              | error e => simp [runToolCalls, hjl, hlk, hf] at hok
              | ok res =>
                  have hok2 : (runToolCalls jl reg rest).err = Option.none := by
                    simpa [runToolCalls, hjl, hlk, hf] using hok
                  simp [runToolCalls, hjl, hlk, hf, ih hok2, msgToolCallId_fcrm]

/-- C2: when the loop over a list of tool-call requests with pairwise
distinct correlation ids completes before the next model call, each
request receives exactly one result message among the appended tool
messages whose `tool_call_id` equals that request's id. -/
theorem each_request_exactly_one_result (jl : String → Option ArgMap)
    (reg : Registry) (ts : List ToolCall)
    (hok : (runToolCalls jl reg ts).err = Option.none)
    (hnodup : (ts.map ToolCall.id).Nodup)
    (tc : ToolCall) (hmem : tc ∈ ts) :
    (runToolCalls jl reg ts).appended.countP
      (fun m => msgToolCallId m == some tc.id) = 1 := by
  have hids := runToolCalls_ids jl reg ts hok
  have h1 : (runToolCalls jl reg ts).appended.countP
        (fun m => msgToolCallId m == some tc.id)
      = ((runToolCalls jl reg ts).appended.map msgToolCallId).countP
        (fun o => o == some tc.id) := by
    rw [List.countP_map]
    rfl
  rw [h1, hids]
  have h2 : ts.map (fun t => some t.id) = (ts.map ToolCall.id).map some := by
    rw [List.map_map]
    rfl
  rw [h2]
  have h3 : ((ts.map ToolCall.id).map some).countP (fun o => o == some tc.id)
      = (ts.map ToolCall.id).countP (fun i => i == tc.id) := by
    rw [List.countP_map]
    congr 1
  have h4 : (ts.map ToolCall.id).countP (fun i => i == tc.id)
      = (ts.map ToolCall.id).count tc.id := rfl
  rw [h3, h4]
  exact List.count_eq_one_of_mem hnodup (List.mem_map_of_mem ToolCall.id hmem)

/-- C2 witness: the recorded single-call run. -/
theorem each_request_exactly_one_result_witness :
    (runToolCalls jsonLoadsDemo localsRegistry [demoToolCall]).appended.countP
      (fun m => msgToolCallId m == some demoToolCall.id) = 1 :=
  each_request_exactly_one_result jsonLoadsDemo localsRegistry [demoToolCall]
    (by rfl) (by decide) demoToolCall (by decide)

/-- C10: `chat_history = messages` aliases the list object rather than
copying it, so every append performed through `chat_history` during
the round trip also mutates the list named `messages`; afterwards the
two names denote the identical sequence: the original messages
followed by everything appended. -/
theorem chat_history_aliases_messages (vs : List PyVal) :
    readVar (sessionAfterAppends vs).1 (sessionAfterAppends vs).2 "messages"
      = readVar (sessionAfterAppends vs).1 (sessionAfterAppends vs).2 "chat_history" ∧
    readVar (sessionAfterAppends vs).1 (sessionAfterAppends vs).2 "messages"
      = some (messages ++ vs) := by
  have h : sessionAfterAppends vs = (⟨[messages ++ vs]⟩, envAfterAlias) := by
    simp [sessionAfterAppends, appendVar_fold]
  rw [h]
  exact ⟨rfl, rfl⟩
